import Mathlib

/-!
Verification of the Mute Decision Workflow
(`src/packages/plugin-bootstrap/src/actions/muteRoom.ts`).

The TypeScript action is embedded shallowly: every external collaborator
(completion service, room lookup, participant-state store, UUID/clock) is a
field of an `Env` record, and the `validate`/`handler` functions are
translated as pure Lean functions that return the ordered list of side
effects they perform (`Effect` trace) together with an `Except` result that
models a thrown error versus normal completion.
-/

namespace MuteRoom

/-- A room: opaque id plus display name (`getRoom` result). -/
structure Room where
  id : String
  name : String
  deriving DecidableEq

/-- The content payload of a memory record (`Content` in the source):
text, optional thought annotation, action tags, optional source tag. -/
structure Content where
  text : Option String := none
  thought : Option String := none
  actions : List String := []
  source : Option String := none
  deriving DecidableEq

/-- A memory record as assembled by the handler before `createMemory`:
the classification memories carry `metadata.type = "MUTE_ROOM"`, the
synthetic acknowledgment additionally carries a fresh id and timestamp. -/
structure MemoryRec where
  id : Option String := none
  entityId : String
  agentId : String
  roomId : String
  content : Content
  metadataType : Option String := none
  createdAt : Option Nat := none
  deriving DecidableEq

/-- The triggering message (the fields of `message` the handler reads). -/
structure Message where
  entityId : String
  agentId : String
  roomId : String
  source : Option String
  deriving DecidableEq

/-- The conversation-state snapshot (`state`): the values substituted into
the prompt template plus the optionally cached room object
(`state.data.room`). -/
structure StateSnapshot where
  agentName : String
  recentMessages : String
  room : Option Room
  deriving DecidableEq

/-- The runtime identity the handler uses (`runtime.agentId`). -/
structure Runtime where
  agentId : String
  deriving DecidableEq

/-- One observable side effect performed by the workflow, in program order. -/
inductive Effect where
  | useModel (prompt : String)
  | createMemory (m : MemoryRec) (channel : String)
  | setParticipantUserState (roomId : String) (agentId : String) (state : String)
  | getRoomCall (roomId : String)
  | logWarn (msg : String)
  | logError (msg : String)
  deriving DecidableEq

/-- The errors the handler can throw. -/
inductive HandlerError where
  | stateRequired
  | modelError (e : String)
  | roomNotFound (roomId : String)
  deriving DecidableEq

/-- The external world: the completion service's behaviour for this
invocation (`useModel` either returns text or rejects), the room lookup,
the participant-state store read, and the UUID/clock sources. -/
structure Env where
  modelResponse : Except String String
  getRoom : String → Option Room
  participantState : String → String → Option String
  freshId : String
  now : Nat

/-- Does `l` start with `sub`? (character-list version of a string
startsWith check, used to define substring containment). -/
def startsWithList : List Char → List Char → Bool
  | _, [] => true
  | [], _ :: _ => false
  | a :: as, b :: bs => a == b && startsWithList as bs

/-- Does `l` contain `sub` as a contiguous sublist? -/
def hasSubList (sub : List Char) : List Char → Bool
  | [] => sub.isEmpty
  | c :: cs => startsWithList (c :: cs) sub || hasSubList sub cs

/-- JavaScript `s.includes(sub)`: substring containment. -/
def containsSubstr (s sub : String) : Bool :=
  hasSubList sub.toList s.toList

/-- A whitespace character as removed by JavaScript `String.prototype.trim`
(the ASCII members relevant to completion replies). -/
def jsWhitespace (c : Char) : Bool :=
  c == ' ' || c == '\t' || c == '\n' || c == '\r'

/-- `response.trim().toLowerCase()` on the character list: strip leading
and trailing whitespace, then lowercase. -/
def cleanList (l : List Char) : List Char :=
  (((l.dropWhile jsWhitespace).reverse.dropWhile jsWhitespace).reverse).map Char.toLower

/-- The cleaned response: `response.trim().toLowerCase()`. -/
def cleanResponse (s : String) : String :=
  String.mk (cleanList s.toList)

/-- Modelled from the spec: `booleanFooter` is imported from the excluded
`@elizaos/core` library and mandates a strict boolean-style footer format
in the expected response. Its exact wording is not in `src/`. -/
def booleanFooter : String :=
  "Respond with only a YES or a NO."

/-- The fixed policy template (`shouldMuteTemplate`). -/
def shouldMuteTemplate : String :=
  "# Task: Decide if {{agentName}} should mute this room and stop responding unless explicitly mentioned.\n\n{{recentMessages}}\n\nShould {{agentName}} mute this room and stop responding unless explicitly mentioned?\n\nRespond with YES if:\n- The user is being aggressive, rude, or inappropriate\n- The user has directly asked {{agentName}} to stop responding or be quiet\n- {{agentName}}'s responses are not well-received or are annoying the user(s)\n\nOtherwise, respond with NO.\n" ++ booleanFooter

/-- Modelled from the spec: `composePromptFromState` (excluded
`@elizaos/core` library) builds the prompt by substituting the agent's
name and the rendered recent-message history into the template. -/
def composePromptFromState (st : StateSnapshot) (template : String) : String :=
  (template.replace "{{agentName}}" st.agentName).replace
    "{{recentMessages}}" st.recentMessages

/-- The affirmative test of `_shouldMute`, applied to the cleaned
(trimmed, lowercased) response. -/
def isAffirmative (cleanedResponse : String) : Bool :=
  cleanedResponse == "true" || cleanedResponse == "yes" || cleanedResponse == "y" ||
  containsSubstr cleanedResponse "true" || containsSubstr cleanedResponse "yes"

/-- The negative test of `_shouldMute`, applied to the cleaned response. -/
def isNegative (cleanedResponse : String) : Bool :=
  cleanedResponse == "false" || cleanedResponse == "no" || cleanedResponse == "n" ||
  containsSubstr cleanedResponse "false" || containsSubstr cleanedResponse "no"

/-- The audit memory appended on the affirmative branch
(action `MUTE_ROOM_STARTED`). -/
def affirmMemory (message : Message) : MemoryRec :=
  { entityId := message.entityId
    agentId := message.agentId
    roomId := message.roomId
    content := { source := message.source
                 thought := some "I will now mute this room"
                 actions := ["MUTE_ROOM_STARTED"] }
    metadataType := some "MUTE_ROOM" }

/-- The audit memory appended on the negative branch
(action `MUTE_ROOM_FAILED`). -/
def negMemory (message : Message) : MemoryRec :=
  { entityId := message.entityId
    agentId := message.agentId
    roomId := message.roomId
    content := { source := message.source
                 thought := some "I decided to not mute this room"
                 actions := ["MUTE_ROOM_FAILED"] }
    metadataType := some "MUTE_ROOM" }

/-- The warning text logged when the response falls through the
classification cascade. -/
def warnMsg (response : String) : String :=
  "Unclear boolean response: " ++ response ++ ", defaulting to false"

/-- The inner `_shouldMute` function: composes the prompt, performs the
single `useModel` call, and classifies the cleaned reply. Returns the
effect trace (in program order) and either the thrown model error or the
boolean decision. The negative branch appends its audit memory but does
not return early, so control falls through to the warning and the final
`return false`. -/
def shouldMute (env : Env) (message : Message) (st : StateSnapshot) :
    List Effect × Except HandlerError Bool :=
  let prompt := composePromptFromState st shouldMuteTemplate
  match env.modelResponse with
  | .error e => ([Effect.useModel prompt], Except.error (HandlerError.modelError e))
  | .ok response =>
    let cleanedResponse := cleanResponse response
    if isAffirmative cleanedResponse then
      ([Effect.useModel prompt,
        Effect.createMemory (affirmMemory message) "messages"],
       Except.ok true)
    else if isNegative cleanedResponse then
      ([Effect.useModel prompt,
        Effect.createMemory (negMemory message) "messages",
        Effect.logWarn (warnMsg response)],
       Except.ok false)
    else
      ([Effect.useModel prompt, Effect.logWarn (warnMsg response)],
       Except.ok false)

/-- The closing audit memory (`MUTE_ROOM_START`, thought
"I muted the room {name}"). -/
def closingMemory (message : Message) (roomName : String) : MemoryRec :=
  { entityId := message.entityId
    agentId := message.agentId
    roomId := message.roomId
    content := { thought := some ("I muted the room " ++ roomName)
                 actions := ["MUTE_ROOM_START"] } }

/-- The synthetic outbound acknowledgment message (`muteMessage`):
authored by the agent itself, empty text, same thought, action
`MUTE_ROOM`, source carried over from the triggering message. -/
def muteMessageRec (env : Env) (rt : Runtime) (message : Message)
    (roomName : String) : MemoryRec :=
  { id := some env.freshId
    entityId := rt.agentId
    agentId := rt.agentId
    roomId := message.roomId
    content := { text := some ""
                 thought := some ("I muted the room " ++ roomName)
                 actions := ["MUTE_ROOM"]
                 source := message.source }
    createdAt := some env.now }

/-- The two unconditional closing `createMemory` calls, in order. -/
def closingEffects (env : Env) (rt : Runtime) (message : Message)
    (roomName : String) : List Effect :=
  [Effect.createMemory (closingMemory message roomName) "messages",
   Effect.createMemory (muteMessageRec env rt message roomName) "messages"]

/-- The `handler` of the MUTE_ROOM action. Mirrors the source line by
line: precondition check on `state`, `_shouldMute`, conditional
`setParticipantUserState`, room resolution via `state.data.room ??
getRoom(message.roomId)`, then the two closing `createMemory` calls. -/
def handler (env : Env) (rt : Runtime) (message : Message)
    (state : Option StateSnapshot) : List Effect × Except HandlerError Unit :=
  match state with
  | none =>
    ([Effect.logError "State is required for muting a room"],
     Except.error HandlerError.stateRequired)
  | some st =>
    let r := shouldMute env message st
    match r.2 with
    | .error e => (r.1, Except.error e)
    | .ok decision =>
      let effs1 := r.1 ++
        (if decision then
          [Effect.setParticipantUserState message.roomId rt.agentId "MUTED"]
         else [])
      match st.room with
      | some room =>
        (effs1 ++ closingEffects env rt message room.name, Except.ok ())
      | none =>
        let effs2 := effs1 ++ [Effect.getRoomCall message.roomId]
        match env.getRoom message.roomId with
        | none => (effs2, Except.error (HandlerError.roomNotFound message.roomId))
        | some room =>
          (effs2 ++ closingEffects env rt message room.name, Except.ok ())

/-- The `validate` predicate of the action: true unless the participant
state for (message.roomId, agentId) is already "MUTED". -/
def validate (env : Env) (rt : Runtime) (message : Message) : Bool :=
  !(env.participantState message.roomId rt.agentId == some "MUTED")

/-- The workflow as invoked by the dispatcher: `validate` gates
`handler`; a false validate means the handler never runs. -/
def workflow (env : Env) (rt : Runtime) (message : Message)
    (state : Option StateSnapshot) : List Effect × Except HandlerError Unit :=
  if validate env rt message then handler env rt message state
  else ([], Except.ok ())

/-- Number of `createMemory` effects in a trace whose record carries the
given action tag. -/
def memActionCount (trace : List Effect) (action : String) : Nat :=
  (trace.filter fun e =>
    match e with
    | Effect.createMemory m _ => m.content.actions.contains action
    | _ => false).length

/-! Concrete fixtures used by the witness theorems. -/

/-- A concrete room. -/
def room0 : Room := { id := "room-1", name := "general" }

/-- A concrete triggering message. -/
def msg0 : Message :=
  { entityId := "user-1", agentId := "agent-1", roomId := "room-1",
    source := some "discord" }

/-- A concrete snapshot carrying a cached room object. -/
def st0 : StateSnapshot :=
  { agentName := "Eliza", recentMessages := "user-1: be quiet", room := some room0 }

/-- A concrete snapshot with no cached room object. -/
def stNoRoom : StateSnapshot :=
  { agentName := "Eliza", recentMessages := "user-1: be quiet", room := none }

/-- The concrete runtime identity. -/
def rt0 : Runtime := { agentId := "agent-1" }

/-- A room lookup that knows only `room0`. -/
def lookup0 : String → Option Room :=
  fun rid => if rid == "room-1" then some room0 else none

/-- Environment: completion service replies "YES", participant is ACTIVE. -/
def envYes : Env :=
  { modelResponse := Except.ok "YES", getRoom := lookup0,
    participantState := fun _ _ => some "ACTIVE", freshId := "uuid-1", now := 5 }

/-- Environment: completion service replies "no, keep talking". -/
def envNo : Env :=
  { modelResponse := Except.ok "no, keep talking", getRoom := lookup0,
    participantState := fun _ _ => some "ACTIVE", freshId := "uuid-2", now := 6 }

/-- Environment: completion service replies "maybe?". -/
def envMaybe : Env :=
  { modelResponse := Except.ok "maybe?", getRoom := lookup0,
    participantState := fun _ _ => some "ACTIVE", freshId := "uuid-3", now := 7 }

/-- Environment: completion reply contains both "yes" and "no". -/
def envBoth : Env :=
  { modelResponse := Except.ok "yes but maybe no", getRoom := lookup0,
    participantState := fun _ _ => some "ACTIVE", freshId := "uuid-4", now := 8 }

/-- Environment: the completion service rejects. -/
def envFail : Env :=
  { modelResponse := Except.error "service unavailable", getRoom := lookup0,
    participantState := fun _ _ => some "ACTIVE", freshId := "uuid-5", now := 9 }

/-- Environment: the participant state is already MUTED. -/
def envMuted : Env :=
  { modelResponse := Except.ok "YES", getRoom := lookup0,
    participantState := fun _ _ => some "MUTED", freshId := "uuid-6", now := 10 }

/-- Environment: room lookup knows nothing (room unresolvable). -/
def envNoRoom : Env :=
  { modelResponse := Except.ok "YES", getRoom := fun _ => none,
    participantState := fun _ _ => some "ACTIVE", freshId := "uuid-7", now := 11 }

/-! Helper lemmas shared by several claims: the value of `shouldMute` on
each classification branch, stated as plain equations. -/

/-- On an affirmative reply, `shouldMute` performs the model call, appends
the MUTE_ROOM_STARTED memory and returns true. -/
theorem shouldMute_affirm (env : Env) (message : Message) (st : StateSnapshot)
    (r : String) (hr : env.modelResponse = Except.ok r)
    (haff : isAffirmative (cleanResponse r) = true) :
    shouldMute env message st =
      ([Effect.useModel (composePromptFromState st shouldMuteTemplate),
        Effect.createMemory (affirmMemory message) "messages"], Except.ok true) := by
  unfold shouldMute
  rw [hr]
  simp [haff]

/-- On a non-affirmative negative reply, `shouldMute` appends the
MUTE_ROOM_FAILED memory, falls through to the warning, and returns false. -/
theorem shouldMute_negBranch (env : Env) (message : Message) (st : StateSnapshot)
    (r : String) (hr : env.modelResponse = Except.ok r)
    (haff : isAffirmative (cleanResponse r) = false)
    (hneg : isNegative (cleanResponse r) = true) :
    shouldMute env message st =
      ([Effect.useModel (composePromptFromState st shouldMuteTemplate),
        Effect.createMemory (negMemory message) "messages",
        Effect.logWarn (warnMsg r)], Except.ok false) := by
  unfold shouldMute
  rw [hr]
  simp [haff, hneg]

/-- On an unclassifiable reply, `shouldMute` only warns and returns false. -/
theorem shouldMute_unclear (env : Env) (message : Message) (st : StateSnapshot)
    (r : String) (hr : env.modelResponse = Except.ok r)
    (haff : isAffirmative (cleanResponse r) = false)
    (hneg : isNegative (cleanResponse r) = false) :
    shouldMute env message st =
      ([Effect.useModel (composePromptFromState st shouldMuteTemplate),
        Effect.logWarn (warnMsg r)], Except.ok false) := by
  unfold shouldMute
  rw [hr]
  simp [haff, hneg]

/-- When the completion service returns text, `shouldMute` never throws:
it returns some trace together with a boolean decision. -/
theorem shouldMute_ok (env : Env) (message : Message) (st : StateSnapshot)
    (r : String) (hr : env.modelResponse = Except.ok r) :
    ∃ t b, shouldMute env message st = (t, Except.ok b) := by
  unfold shouldMute
  rw [hr]
  by_cases h1 : isAffirmative (cleanResponse r) <;>
    by_cases h2 : isNegative (cleanResponse r) <;>
      simp [h1, h2]

/-- Claim C1: for every completion-service reply whose trimmed, lowercased
form equals "true", "yes", or "y", or contains "true" or "yes" as a
substring, the handler classifies the outcome as MUTE: it appends exactly
one audit memory with action tag MUTE_ROOM_STARTED and thought
"I will now mute this room" to the "messages" channel, and then sets the
participant state for (message.roomId, agentId) to MUTED. -/
theorem claim_C1 (env : Env) (rt : Runtime) (message : Message)
    (st : StateSnapshot) (r : String)
    (hr : env.modelResponse = Except.ok r)
    (haff : isAffirmative (cleanResponse r) = true) :
    (∃ rest, (handler env rt message (some st)).1 =
        Effect.useModel (composePromptFromState st shouldMuteTemplate) ::
        Effect.createMemory (affirmMemory message) "messages" ::
        Effect.setParticipantUserState message.roomId rt.agentId "MUTED" :: rest) ∧
    (affirmMemory message).content.thought = some "I will now mute this room" ∧
    (affirmMemory message).content.actions = ["MUTE_ROOM_STARTED"] ∧
    memActionCount (handler env rt message (some st)).1 "MUTE_ROOM_STARTED" = 1 := by
  have hsm := shouldMute_affirm env message st r hr haff
  refine ⟨?_, rfl, rfl, ?_⟩ <;>
  · simp only [handler, hsm]
    rcases st.room with _ | room
    · rcases hg : env.getRoom message.roomId with _ | room <;>
        simp [hg, memActionCount, closingEffects, closingMemory, muteMessageRec,
          affirmMemory, List.filter]
    · simp [memActionCount, closingEffects, closingMemory, muteMessageRec,
        affirmMemory, List.filter]

/-- Witness for C1: the concrete reply "YES" in a concrete environment. -/
theorem claim_C1_witness :
    envYes.modelResponse = Except.ok "YES" ∧
    isAffirmative (cleanResponse "YES") = true ∧
    ((∃ rest, (handler envYes rt0 msg0 (some st0)).1 =
        Effect.useModel (composePromptFromState st0 shouldMuteTemplate) ::
        Effect.createMemory (affirmMemory msg0) "messages" ::
        Effect.setParticipantUserState msg0.roomId rt0.agentId "MUTED" :: rest) ∧
     (affirmMemory msg0).content.thought = some "I will now mute this room" ∧
     (affirmMemory msg0).content.actions = ["MUTE_ROOM_STARTED"] ∧
     memActionCount (handler envYes rt0 msg0 (some st0)).1 "MUTE_ROOM_STARTED" = 1) :=
  ⟨rfl, by decide, claim_C1 envYes rt0 msg0 st0 "YES" rfl (by decide)⟩

/-- Claim C2: for every completion-service reply that does not match the
affirmative rule and whose trimmed, lowercased form equals "false", "no",
or "n", or contains "false" or "no" as a substring, the outcome is
NO_MUTE: the handler appends an audit memory with action tag
MUTE_ROOM_FAILED and thought "I decided to not mute this room", and the
participant state for (message.roomId, agentId) is never written. -/
theorem claim_C2 (env : Env) (rt : Runtime) (message : Message)
    (st : StateSnapshot) (r : String)
    (hr : env.modelResponse = Except.ok r)
    (haff : isAffirmative (cleanResponse r) = false)
    (hneg : isNegative (cleanResponse r) = true) :
    (∃ rest, (handler env rt message (some st)).1 =
        Effect.useModel (composePromptFromState st shouldMuteTemplate) ::
        Effect.createMemory (negMemory message) "messages" :: rest) ∧
    (negMemory message).content.thought = some "I decided to not mute this room" ∧
    (negMemory message).content.actions = ["MUTE_ROOM_FAILED"] ∧
    ∀ a b c, Effect.setParticipantUserState a b c ∉
      (handler env rt message (some st)).1 := by
  have hsm := shouldMute_negBranch env message st r hr haff hneg
  refine ⟨?_, rfl, rfl, ?_⟩ <;>
  · simp only [handler, hsm]
    rcases st.room with _ | room
    · rcases hg : env.getRoom message.roomId with _ | room <;>
        simp [hg, closingEffects]
    · simp [closingEffects]

/-- Witness for C2: the concrete reply "no, keep talking". -/
theorem claim_C2_witness :
    envNo.modelResponse = Except.ok "no, keep talking" ∧
    isAffirmative (cleanResponse "no, keep talking") = false ∧
    isNegative (cleanResponse "no, keep talking") = true ∧
    ((∃ rest, (handler envNo rt0 msg0 (some st0)).1 =
        Effect.useModel (composePromptFromState st0 shouldMuteTemplate) ::
        Effect.createMemory (negMemory msg0) "messages" :: rest) ∧
     (negMemory msg0).content.thought = some "I decided to not mute this room" ∧
     (negMemory msg0).content.actions = ["MUTE_ROOM_FAILED"] ∧
     ∀ a b c, Effect.setParticipantUserState a b c ∉
       (handler envNo rt0 msg0 (some st0)).1) :=
  ⟨rfl, by decide, by decide,
   claim_C2 envNo rt0 msg0 st0 "no, keep talking" rfl (by decide) (by decide)⟩

/-- Claim C3: whenever a state snapshot is supplied, the completion call
succeeds and the room resolves, the handler appends a closing audit memory
(action MUTE_ROOM_START, thought "I muted the room {name}") and then a
synthetic message authored by the agent itself (entityId = agentId) with
empty text, the same thought, action tag MUTE_ROOM and the triggering
message's source — regardless of the classification outcome. -/
theorem claim_C3 (env : Env) (rt : Runtime) (message : Message)
    (st : StateSnapshot) (r : String) (room : Room)
    (hr : env.modelResponse = Except.ok r)
    (hroom : st.room = some room ∨
      (st.room = none ∧ env.getRoom message.roomId = some room)) :
    (∃ pre, (handler env rt message (some st)).1 =
        pre ++ [Effect.createMemory (closingMemory message room.name) "messages",
                Effect.createMemory (muteMessageRec env rt message room.name) "messages"]) ∧
    (handler env rt message (some st)).2 = Except.ok () ∧
    (closingMemory message room.name).content.thought =
      some ("I muted the room " ++ room.name) ∧
    (closingMemory message room.name).content.actions = ["MUTE_ROOM_START"] ∧
    (muteMessageRec env rt message room.name).entityId = rt.agentId ∧
    (muteMessageRec env rt message room.name).content.text = some "" ∧
    (muteMessageRec env rt message room.name).content.thought =
      (closingMemory message room.name).content.thought ∧
    (muteMessageRec env rt message room.name).content.actions = ["MUTE_ROOM"] ∧
    (muteMessageRec env rt message room.name).content.source = message.source := by
  obtain ⟨t, b, hsm⟩ := shouldMute_ok env message st r hr
  rcases hroom with h | ⟨h1, h2⟩
  · refine ⟨⟨t ++ (if b then
        [Effect.setParticipantUserState message.roomId rt.agentId "MUTED"]
      else []), ?_⟩, ?_, rfl, rfl, rfl, rfl, rfl, rfl, rfl⟩ <;>
      simp [handler, hsm, h, closingEffects]
  · refine ⟨⟨t ++ (if b then
        [Effect.setParticipantUserState message.roomId rt.agentId "MUTED"]
      else []) ++ [Effect.getRoomCall message.roomId], ?_⟩, ?_,
        rfl, rfl, rfl, rfl, rfl, rfl, rfl⟩ <;>
      simp [handler, hsm, h1, h2, closingEffects]

/-- Witness for C3: the "YES" environment with a cached room object. -/
theorem claim_C3_witness :
    envYes.modelResponse = Except.ok "YES" ∧
    st0.room = some room0 ∧
    ((∃ pre, (handler envYes rt0 msg0 (some st0)).1 =
        pre ++ [Effect.createMemory (closingMemory msg0 room0.name) "messages",
                Effect.createMemory (muteMessageRec envYes rt0 msg0 room0.name) "messages"]) ∧
     (handler envYes rt0 msg0 (some st0)).2 = Except.ok () ∧
     (closingMemory msg0 room0.name).content.thought =
       some ("I muted the room " ++ room0.name) ∧
     (closingMemory msg0 room0.name).content.actions = ["MUTE_ROOM_START"] ∧
     (muteMessageRec envYes rt0 msg0 room0.name).entityId = rt0.agentId ∧
     (muteMessageRec envYes rt0 msg0 room0.name).content.text = some "" ∧
     (muteMessageRec envYes rt0 msg0 room0.name).content.thought =
       (closingMemory msg0 room0.name).content.thought ∧
     (muteMessageRec envYes rt0 msg0 room0.name).content.actions = ["MUTE_ROOM"] ∧
     (muteMessageRec envYes rt0 msg0 room0.name).content.source = msg0.source) :=
  ⟨rfl, rfl, claim_C3 envYes rt0 msg0 st0 "YES" room0 rfl (Or.inl rfl)⟩

/-- Claim C4: for every room whose participant state for the agent is
already MUTED, `validate` returns false and the gated workflow performs no
effect at all: no completion call, no state change, no memory writes. -/
theorem claim_C4 (env : Env) (rt : Runtime) (message : Message)
    (state : Option StateSnapshot)
    (h : env.participantState message.roomId rt.agentId = some "MUTED") :
    validate env rt message = false ∧
    workflow env rt message state = ([], Except.ok ()) := by
  have hv : validate env rt message = false := by simp [validate, h]
  exact ⟨hv, by simp [workflow, hv]⟩

/-- Witness for C4: the already-muted environment. -/
theorem claim_C4_witness :
    envMuted.participantState msg0.roomId rt0.agentId = some "MUTED" ∧
    (validate envMuted rt0 msg0 = false ∧
     workflow envMuted rt0 msg0 (some st0) = ([], Except.ok ())) :=
  ⟨rfl, claim_C4 envMuted rt0 msg0 (some st0) rfl⟩

/-- Claim C5: for every reply whose normalized form contains both an
affirmative substring ("yes" or "true") and a negative substring ("no" or
"false"), the affirmative check wins: the outcome is MUTE, the
MUTE_ROOM_STARTED memory is appended and no MUTE_ROOM_FAILED memory is
appended anywhere in the handler trace. -/
theorem claim_C5 (env : Env) (rt : Runtime) (message : Message)
    (st : StateSnapshot) (r : String)
    (hr : env.modelResponse = Except.ok r)
    (hyes : containsSubstr (cleanResponse r) "yes" = true ∨
            containsSubstr (cleanResponse r) "true" = true)
    (_hno : containsSubstr (cleanResponse r) "no" = true ∨
            containsSubstr (cleanResponse r) "false" = true) :
    shouldMute env message st =
      ([Effect.useModel (composePromptFromState st shouldMuteTemplate),
        Effect.createMemory (affirmMemory message) "messages"], Except.ok true) ∧
    memActionCount (handler env rt message (some st)).1 "MUTE_ROOM_STARTED" = 1 ∧
    memActionCount (handler env rt message (some st)).1 "MUTE_ROOM_FAILED" = 0 := by
  have haff : isAffirmative (cleanResponse r) = true := by
    unfold isAffirmative
    rcases hyes with h | h <;> simp [h]
  have hsm := shouldMute_affirm env message st r hr haff
  refine ⟨hsm, ?_, ?_⟩ <;>
  · simp only [handler, hsm]
    rcases st.room with _ | room
    · rcases hg : env.getRoom message.roomId with _ | room <;>
        simp [hg, memActionCount, closingEffects, closingMemory, muteMessageRec,
          affirmMemory, List.filter]
    · simp [memActionCount, closingEffects, closingMemory, muteMessageRec,
        affirmMemory, List.filter]

/-- Witness for C5: the concrete reply "yes but maybe no". -/
theorem claim_C5_witness :
    envBoth.modelResponse = Except.ok "yes but maybe no" ∧
    containsSubstr (cleanResponse "yes but maybe no") "yes" = true ∧
    containsSubstr (cleanResponse "yes but maybe no") "no" = true ∧
    (shouldMute envBoth msg0 st0 =
      ([Effect.useModel (composePromptFromState st0 shouldMuteTemplate),
        Effect.createMemory (affirmMemory msg0) "messages"], Except.ok true) ∧
     memActionCount (handler envBoth rt0 msg0 (some st0)).1 "MUTE_ROOM_STARTED" = 1 ∧
     memActionCount (handler envBoth rt0 msg0 (some st0)).1 "MUTE_ROOM_FAILED" = 0) :=
  ⟨rfl, by decide, by decide,
   claim_C5 envBoth rt0 msg0 st0 "yes but maybe no" rfl
     (Or.inl (by decide)) (Or.inl (by decide))⟩

/-- Claim C6: for every reply matching neither the affirmative nor the
negative rule, the outcome is UNCLEAR treated as NO_MUTE: `_shouldMute`
logs the warning and returns false without appending any
classification-stage memory or raising an error, and the participant
state is never written. -/
theorem claim_C6 (env : Env) (rt : Runtime) (message : Message)
    (st : StateSnapshot) (r : String)
    (hr : env.modelResponse = Except.ok r)
    (haff : isAffirmative (cleanResponse r) = false)
    (hneg : isNegative (cleanResponse r) = false) :
    shouldMute env message st =
      ([Effect.useModel (composePromptFromState st shouldMuteTemplate),
        Effect.logWarn (warnMsg r)], Except.ok false) ∧
    (∀ a b c, Effect.setParticipantUserState a b c ∉
      (handler env rt message (some st)).1) ∧
    memActionCount (handler env rt message (some st)).1 "MUTE_ROOM_STARTED" = 0 ∧
    memActionCount (handler env rt message (some st)).1 "MUTE_ROOM_FAILED" = 0 := by
  have hsm := shouldMute_unclear env message st r hr haff hneg
  refine ⟨hsm, ?_, ?_, ?_⟩ <;>
  · simp only [handler, hsm]
    rcases st.room with _ | room
    · rcases hg : env.getRoom message.roomId with _ | room <;>
        simp [hg, memActionCount, closingEffects, closingMemory, muteMessageRec,
          List.filter]
    · simp [memActionCount, closingEffects, closingMemory, muteMessageRec,
        List.filter]

/-- Witness for C6: the concrete reply "maybe?". -/
theorem claim_C6_witness :
    envMaybe.modelResponse = Except.ok "maybe?" ∧
    isAffirmative (cleanResponse "maybe?") = false ∧
    isNegative (cleanResponse "maybe?") = false ∧
    (shouldMute envMaybe msg0 st0 =
      ([Effect.useModel (composePromptFromState st0 shouldMuteTemplate),
        Effect.logWarn (warnMsg "maybe?")], Except.ok false) ∧
     (∀ a b c, Effect.setParticipantUserState a b c ∉
       (handler envMaybe rt0 msg0 (some st0)).1) ∧
     memActionCount (handler envMaybe rt0 msg0 (some st0)).1 "MUTE_ROOM_STARTED" = 0 ∧
     memActionCount (handler envMaybe rt0 msg0 (some st0)).1 "MUTE_ROOM_FAILED" = 0) :=
  ⟨rfl, by decide, by decide,
   claim_C6 envMaybe rt0 msg0 st0 "maybe?" rfl (by decide) (by decide)⟩

/-- Claim C7: when no conversation-state snapshot is supplied, the
handler logs and throws the precondition error before doing anything
else: no model call, no memory append, no participant-state write. -/
theorem claim_C7 (env : Env) (rt : Runtime) (message : Message) :
    handler env rt message none =
      ([Effect.logError "State is required for muting a room"],
       Except.error HandlerError.stateRequired) ∧
    (∀ p, Effect.useModel p ∉ (handler env rt message none).1) ∧
    (∀ m ch, Effect.createMemory m ch ∉ (handler env rt message none).1) ∧
    (∀ a b c, Effect.setParticipantUserState a b c ∉
      (handler env rt message none).1) := by
  refine ⟨rfl, ?_, ?_, ?_⟩ <;> simp [handler]

/-- Claim C8: if the completion-service call fails, the error propagates
unchanged and the only effect performed is the model call itself: no
memory has been appended and no participant state has been written. -/
theorem claim_C8 (env : Env) (rt : Runtime) (message : Message)
    (st : StateSnapshot) (e : String)
    (he : env.modelResponse = Except.error e) :
    handler env rt message (some st) =
      ([Effect.useModel (composePromptFromState st shouldMuteTemplate)],
       Except.error (HandlerError.modelError e)) ∧
    (∀ m ch, Effect.createMemory m ch ∉ (handler env rt message (some st)).1) ∧
    (∀ a b c, Effect.setParticipantUserState a b c ∉
      (handler env rt message (some st)).1) := by
  have hsm : shouldMute env message st =
      ([Effect.useModel (composePromptFromState st shouldMuteTemplate)],
       Except.error (HandlerError.modelError e)) := by
    simp [shouldMute, he]
  refine ⟨?_, ?_, ?_⟩ <;> simp [handler, hsm]

/-- Witness for C8: the rejecting completion service. -/
theorem claim_C8_witness :
    envFail.modelResponse = Except.error "service unavailable" ∧
    (handler envFail rt0 msg0 (some st0) =
      ([Effect.useModel (composePromptFromState st0 shouldMuteTemplate)],
       Except.error (HandlerError.modelError "service unavailable")) ∧
     (∀ m ch, Effect.createMemory m ch ∉ (handler envFail rt0 msg0 (some st0)).1) ∧
     (∀ a b c, Effect.setParticipantUserState a b c ∉
       (handler envFail rt0 msg0 (some st0)).1)) :=
  ⟨rfl, claim_C8 envFail rt0 msg0 st0 "service unavailable" rfl⟩

/-- `memActionCount` distributes over list append. -/
theorem memActionCount_append (a b : List Effect) (s : String) :
    memActionCount (a ++ b) s = memActionCount a s + memActionCount b s := by
  simp [memActionCount, List.filter_append]

/-- A lone state-set effect holds no memory with any action tag. -/
theorem memActionCount_set (rid aid stt s : String) :
    memActionCount [Effect.setParticipantUserState rid aid stt] s = 0 := by
  simp [memActionCount]

/-- A lone room-lookup effect holds no memory with any action tag. -/
theorem memActionCount_getRoomCall (rid s : String) :
    memActionCount [Effect.getRoomCall rid] s = 0 := by
  simp [memActionCount]

/-- The empty trace holds no memory with any action tag. -/
theorem memActionCount_nil (s : String) : memActionCount [] s = 0 := by
  simp [memActionCount]

/-- A leading state-set effect never counts as a tagged memory. -/
theorem memActionCount_cons_set (rid aid stt : String) (l : List Effect)
    (s : String) :
    memActionCount (Effect.setParticipantUserState rid aid stt :: l) s =
      memActionCount l s := by
  simp [memActionCount]

/-- A leading room-lookup effect never counts as a tagged memory. -/
theorem memActionCount_cons_getRoomCall (rid : String) (l : List Effect)
    (s : String) :
    memActionCount (Effect.getRoomCall rid :: l) s = memActionCount l s := by
  simp [memActionCount]

/-- When the completion service returns text, the classifier trace holds a
boolean decision, no memory tagged MUTE_ROOM_START or MUTE_ROOM, and no
room lookup. -/
theorem shouldMute_ok_shape (env : Env) (message : Message)
    (st : StateSnapshot) (r : String)
    (hr : env.modelResponse = Except.ok r) :
    ∃ t b, shouldMute env message st = (t, Except.ok b) ∧
      memActionCount t "MUTE_ROOM_START" = 0 ∧
      memActionCount t "MUTE_ROOM" = 0 ∧
      ∀ rid, Effect.getRoomCall rid ∉ t := by
  cases h1 : isAffirmative (cleanResponse r)
  · cases h2 : isNegative (cleanResponse r)
    · exact ⟨_, _, shouldMute_unclear env message st r hr h1 h2,
        by simp [memActionCount], by simp [memActionCount], by simp⟩
    · exact ⟨_, _, shouldMute_negBranch env message st r hr h1 h2,
        by simp [memActionCount, negMemory],
        by simp [memActionCount, negMemory], by simp⟩
  · exact ⟨_, _, shouldMute_affirm env message st r hr h1,
      by simp [memActionCount, affirmMemory],
      by simp [memActionCount, affirmMemory], by simp⟩

/-- Claim C9: the closing records use the cached room from the snapshot
when present (and the room lookup is never called); otherwise the room
comes from getRoom(message.roomId), and if that lookup fails the handler
throws a not-found error and appends neither the closing audit memory
nor the synthetic acknowledgment message. -/
theorem claim_C9 (env : Env) (rt : Runtime) (message : Message)
    (st : StateSnapshot) (r : String)
    (hr : env.modelResponse = Except.ok r) :
    (∀ room, st.room = some room →
      (∀ rid, Effect.getRoomCall rid ∉ (handler env rt message (some st)).1) ∧
      (∃ pre, (handler env rt message (some st)).1 =
        pre ++ closingEffects env rt message room.name) ∧
      (handler env rt message (some st)).2 = Except.ok ()) ∧
    (st.room = none → env.getRoom message.roomId = none →
      (handler env rt message (some st)).2 =
        Except.error (HandlerError.roomNotFound message.roomId) ∧
      memActionCount (handler env rt message (some st)).1 "MUTE_ROOM_START" = 0 ∧
      memActionCount (handler env rt message (some st)).1 "MUTE_ROOM" = 0) ∧
    (∀ room, st.room = none → env.getRoom message.roomId = some room →
      Effect.getRoomCall message.roomId ∈ (handler env rt message (some st)).1 ∧
      ∃ pre, (handler env rt message (some st)).1 =
        pre ++ closingEffects env rt message room.name) := by
  obtain ⟨t, b, hsm, hc1, hc2, hg⟩ := shouldMute_ok_shape env message st r hr
  rcases b
  · refine ⟨?_, ?_, ?_⟩
    · intro room hroom
      refine ⟨?_, ⟨t, ?_⟩, ?_⟩
      · intro rid
        simp [handler, hsm, hroom, closingEffects, hg rid]
      · simp [handler, hsm, hroom, closingEffects]
      · simp [handler, hsm, hroom, closingEffects]
    · intro h1 h2
      refine ⟨?_, ?_, ?_⟩ <;>
        simp [handler, hsm, h1, h2, memActionCount_append, hc1, hc2,
          memActionCount_getRoomCall, memActionCount_cons_getRoomCall,
          memActionCount_nil]
    · intro room h1 h2
      refine ⟨?_, ⟨t ++ [Effect.getRoomCall message.roomId], ?_⟩⟩ <;>
        simp [handler, hsm, h1, h2, closingEffects]
  · refine ⟨?_, ?_, ?_⟩
    · intro room hroom
      refine ⟨?_, ⟨t ++
        [Effect.setParticipantUserState message.roomId rt.agentId "MUTED"], ?_⟩, ?_⟩
      · intro rid
        simp [handler, hsm, hroom, closingEffects, hg rid]
      · simp [handler, hsm, hroom, closingEffects]
      · simp [handler, hsm, hroom, closingEffects]
    · intro h1 h2
      refine ⟨?_, ?_, ?_⟩ <;>
        simp [handler, hsm, h1, h2, memActionCount_append, hc1, hc2,
          memActionCount_getRoomCall, memActionCount_set,
          memActionCount_cons_getRoomCall, memActionCount_cons_set,
          memActionCount_nil]
    · intro room h1 h2
      refine ⟨?_, ⟨t ++
        [Effect.setParticipantUserState message.roomId rt.agentId "MUTED"] ++
        [Effect.getRoomCall message.roomId], ?_⟩⟩ <;>
        simp [handler, hsm, h1, h2, closingEffects]

/-- Witness for C9: the "YES" environment, instantiated at the cached
room, the missing room, and the fresh-lookup cases. -/
theorem claim_C9_witness :
    envYes.modelResponse = Except.ok "YES" ∧
    ((∀ room, st0.room = some room →
      (∀ rid, Effect.getRoomCall rid ∉ (handler envYes rt0 msg0 (some st0)).1) ∧
      (∃ pre, (handler envYes rt0 msg0 (some st0)).1 =
        pre ++ closingEffects envYes rt0 msg0 room.name) ∧
      (handler envYes rt0 msg0 (some st0)).2 = Except.ok ()) ∧
    (st0.room = none → envYes.getRoom msg0.roomId = none →
      (handler envYes rt0 msg0 (some st0)).2 =
        Except.error (HandlerError.roomNotFound msg0.roomId) ∧
      memActionCount (handler envYes rt0 msg0 (some st0)).1 "MUTE_ROOM_START" = 0 ∧
      memActionCount (handler envYes rt0 msg0 (some st0)).1 "MUTE_ROOM" = 0) ∧
    (∀ room, st0.room = none → envYes.getRoom msg0.roomId = some room →
      Effect.getRoomCall msg0.roomId ∈ (handler envYes rt0 msg0 (some st0)).1 ∧
      ∃ pre, (handler envYes rt0 msg0 (some st0)).1 =
        pre ++ closingEffects envYes rt0 msg0 room.name)) :=
  ⟨rfl, claim_C9 envYes rt0 msg0 st0 "YES" rfl⟩

/-- Claim C10: the negative branch does not return early: every
non-affirmative reply — negative or unclassifiable — reaches the final
warning and the shared `return false`, with the MUTE_ROOM_FAILED memory
appended in between exactly when the reply matched the negative rule. -/
theorem claim_C10 (env : Env) (message : Message) (st : StateSnapshot)
    (r : String)
    (hr : env.modelResponse = Except.ok r)
    (haff : isAffirmative (cleanResponse r) = false) :
    ∃ mid, shouldMute env message st =
        (Effect.useModel (composePromptFromState st shouldMuteTemplate) ::
          (mid ++ [Effect.logWarn (warnMsg r)]), Except.ok false) ∧
      (isNegative (cleanResponse r) = true →
        mid = [Effect.createMemory (negMemory message) "messages"]) ∧
      (isNegative (cleanResponse r) = false → mid = []) := by
  cases hneg : isNegative (cleanResponse r)
  · exact ⟨[], by simp [shouldMute_unclear env message st r hr haff hneg],
      fun h => Bool.noConfusion h, fun _ => rfl⟩
  · exact ⟨[Effect.createMemory (negMemory message) "messages"],
      by simp [shouldMute_negBranch env message st r hr haff hneg],
      fun _ => rfl, fun h => Bool.noConfusion h⟩

/-- Witness for C10: the explicit negative reply "no, keep talking". -/
theorem claim_C10_witness :
    envNo.modelResponse = Except.ok "no, keep talking" ∧
    isAffirmative (cleanResponse "no, keep talking") = false ∧
    (∃ mid, shouldMute envNo msg0 st0 =
        (Effect.useModel (composePromptFromState st0 shouldMuteTemplate) ::
          (mid ++ [Effect.logWarn (warnMsg "no, keep talking")]), Except.ok false) ∧
      (isNegative (cleanResponse "no, keep talking") = true →
        mid = [Effect.createMemory (negMemory msg0) "messages"]) ∧
      (isNegative (cleanResponse "no, keep talking") = false → mid = [])) :=
  ⟨rfl, by decide, claim_C10 envNo msg0 st0 "no, keep talking" rfl (by decide)⟩

end MuteRoom
